import Mathlib

/-!
Shallow embedding of the medical-triage MCP server
(`src/src/simple_mcp.py`) for verification of its specification.

Modelling conventions:
* Python strings are Lean `String`; Python `needle in haystack` is the
  boolean substring test `pyIn`; Python `str.lower()` is `pyLower`
  (per-character ASCII lowering, which agrees with Python on the ASCII
  data used throughout this program).
* Python dicts used as lookup tables are association lists
  (`List (String × _)`) in the source's insertion order, read through
  `dictGet`; a `.get(k, default)` is `(dictGet d k).getD default`.
* The server object's mutable state (`self.sessions`,
  `self.google_api_key`) is an explicit `ServerState` threaded through
  each tool; `datetime.now().isoformat()` is an explicit `now : String`
  argument.
* The Google-places network call inside `find_nearby_chemists` is a
  parameter `api : Except String (List Place)`: `.ok places` models a
  response of `places_nearby`, `.error e` models a raised exception
  caught by the `except` block.  Latitude/longitude and the float
  radius are only interpolated into strings or echoed back, so they
  are carried as opaque strings.
-/

/-- Python `str.lower()` restricted to the ASCII data of this program:
lowercases each character. -/
def pyLower (s : String) : String :=
  String.mk (s.data.map Char.toLower)

/-- Whether `needle` is a prefix of `hay` (character lists). -/
def startsWith : List Char → List Char → Bool
  | [], _ => true
  | _ :: _, [] => false
  | a :: as, b :: bs => a == b && startsWith as bs

/-- Whether `needle` occurs as a contiguous substring of `hay`
(character lists); Python `needle in hay`. -/
def occursIn (needle : List Char) : List Char → Bool
  | [] => startsWith needle []
  | b :: bs => startsWith needle (b :: bs) || occursIn needle bs

/-- Python substring containment `needle in haystack` on strings. -/
def pyIn (needle haystack : String) : Bool :=
  occursIn needle.data haystack.data

/-- Python `str.split(c)` on character lists (used for
`key.split('_')`). -/
def pySplit (c : Char) : List Char → List (List Char)
  | [] => [[]]
  | x :: xs =>
    let r := pySplit c xs
    if x == c then [] :: r
    else
      match r with
      | [] => [[x]]
      | h :: t => (x :: h) :: t

/-- Association-list lookup, modelling Python `dict.get(k)` /
`k in dict` on the insertion-ordered tables of this program. -/
def dictGet {β : Type} (d : List (String × β)) (k : String) : Option β :=
  (d.find? (fun p => p.1 == k)).map (fun p => p.2)

/-- The de-duplication loop of `get_home_remedies`
(`for remedy in remedies: if remedy not in unique_remedies: append`). -/
def pyUnique (l : List String) : List String :=
  l.foldl (fun acc r => if r ∈ acc then acc else acc ++ [r]) []

/-- Python slicing `l[k:]` for a possibly negative start index `k`. -/
def pySliceFrom {α : Type} (l : List α) (k : Int) : List α :=
  if k < 0 then l.drop (max ((l.length : Int) + k) 0).toNat
  else l.drop (min k (l.length : Int)).toNat

/-- The last `n` elements of a list (a suffix of length `min n l.length`);
used to describe the Session Log cap. -/
def lastN (n : Nat) (l : List α) : List α :=
  l.drop (l.length - n)

/-- One record of the `BASIC_MEDICINES` table.  Each Python dict value
is a record of optional string fields (absent key ↦ `none`). -/
structure MedicineInfo where
  medicine : Option String
  dose : Option String
  max_daily : Option String
  frequency : Option String
  additional : Option String
  warning : Option String
  age_restriction : Option String
deriving DecidableEq

/-- `BASIC_MEDICINES` (simple_mcp.py lines 20-48), in source order. -/
def BASIC_MEDICINES : List (String × MedicineInfo) :=
  [("fever",
    { medicine := some "Paracetamol",
      dose := some "500mg every 6-8 hours",
      max_daily := some "4g (4000mg)",
      frequency := none, additional := none,
      warning := some "Don't exceed maximum daily dose",
      age_restriction := some "Not for children under 3 months" }),
   ("headache",
    { medicine := some "Paracetamol or Ibuprofen",
      dose := some "Paracetamol: 500mg OR Ibuprofen: 200-400mg",
      max_daily := none,
      frequency := some "every 6-8 hours",
      additional := none,
      warning := some "Don't take both together",
      age_restriction := some "Ibuprofen not for children under 6 months" }),
   ("pain",
    { medicine := some "Ibuprofen",
      dose := some "200-400mg every 6-8 hours",
      max_daily := some "1200mg",
      frequency := none, additional := none,
      warning := some "Take with food to avoid stomach upset",
      age_restriction := some "Not for children under 6 months" }),
   ("cold",
    { medicine := some "Paracetamol for fever/pain",
      dose := some "500mg every 6-8 hours",
      max_daily := none, frequency := none,
      additional := some "ORS for hydration if needed",
      warning := some "No antibiotics for viral cold",
      age_restriction := none })]

/-- `HOME_REMEDIES` (simple_mcp.py lines 50-86), in source order. -/
def HOME_REMEDIES : List (String × List String) :=
  [("fever",
    ["Rest and drink plenty of fluids (water, fruit juices)",
     "Cool compress on forehead and wrists",
     "Light, loose cotton clothing",
     "Room temperature bath or sponging",
     "Avoid heavy meals, eat light foods"]),
   ("cough",
    ["Honey and warm water (1 tsp honey in warm water)",
     "Steam inhalation (hot water bowl with towel over head)",
     "Gargle with warm salt water (1/2 tsp salt in warm water)",
     "Stay hydrated with warm fluids",
     "Elevate head while sleeping"]),
   ("headache",
    ["Rest in dark, quiet room",
     "Cold compress on forehead or warm compress on neck",
     "Stay hydrated - drink water",
     "Gentle neck and shoulder massage",
     "Avoid loud noises and bright lights"]),
   ("cold",
    ["Rest and get adequate sleep",
     "Warm fluids (herbal tea, warm water with honey)",
     "Saline nasal rinse or drops",
     "Humidifier or steam inhalation",
     "Throat lozenges for sore throat"]),
   ("stomach_upset",
    ["BRAT diet (Bananas, Rice, Applesauce, Toast)",
     "Stay hydrated with ORS or clear fluids",
     "Ginger tea for nausea",
     "Avoid dairy, fatty, or spicy foods",
     "Rest and avoid stress"])]

/-- `EMERGENCY_KEYWORDS` (simple_mcp.py lines 88-95), in source order. -/
def EMERGENCY_KEYWORDS : List String :=
  ["chest pain", "difficulty breathing", "unconscious",
   "severe bleeding", "stroke", "heart attack", "poisoning",
   "severe headache", "high fever above 103", "seizure",
   "suicide", "self harm", "overdose", "choking",
   "severe abdominal pain", "severe vomiting", "blood in vomit",
   "blood in stool", "severe diarrhea", "dehydration signs"]

/-- The fixed `emergency_contacts` mapping in the emergency response. -/
structure EmergencyContacts where
  ambulance : String
  police : String
  fire : String
deriving DecidableEq

/-- Result dict of `analyze_symptoms` (lines 104-155).  The emergency
branch and the normal branch return different key sets; a key absent
from a branch is `none`. -/
structure AnalyzeResult where
  triage_level : String
  message : Option String
  action : Option String
  detected_red_flags : Option (List String)
  emergency_contacts : Option EmergencyContacts
  condition : Option String
  assessment : Option String
  medicine_suggestion : Option MedicineInfo
  home_remedies : Option (List String)
  follow_up : Option String
  warning_signs : Option (List String)
  disclaimer : String
deriving DecidableEq

/-- Result of `suggest_medicine` (lines 157-195): either the early
pharmacist-referral dict (when the medicine lookup is empty) or the
full suggestion dict. -/
inductive SuggestResult where
  | referral (message general_advice common_otc disclaimer : String)
  | suggestion (condition recommended_medicine dosage frequency
      max_daily : String) (warnings : List String) (disclaimer : String)
deriving DecidableEq

/-- The `recommended_medicine` field of a `suggest_medicine` result
(`none` on the referral dict, which has no such key). -/
def SuggestResult.recommended_medicine : SuggestResult → Option String
  | .referral _ _ _ _ => none
  | .suggestion _ m _ _ _ _ _ => some m

/-- The `warnings` field of a `suggest_medicine` result (`[]` on the
referral dict, which has no such key). -/
def SuggestResult.warnings : SuggestResult → List String
  | .referral _ _ _ _ => []
  | .suggestion _ _ _ _ _ w _ => w

/-- Result dict of `get_home_remedies` (lines 197-245). -/
structure RemediesResult where
  condition : String
  matched_categories : List String
  remedies : List String
  general_tips : List String
  disclaimer : String
  warning : String
deriving DecidableEq

/-- One entry of a Google-places response, restricted to the keys
`find_nearby_chemists` reads; an absent key is `none`.  Numeric fields
(rating, lat, lng) are only echoed into strings, so they are carried
as strings. -/
structure Place where
  name : Option String
  vicinity : Option String
  rating : Option String
  opening_open_now : Option String
  place_id : Option String
  geometry : Option (String × String)
deriving DecidableEq

/-- One chemist dict built by `find_nearby_chemists` (lines 270-287). -/
structure Chemist where
  name : String
  address : String
  rating : String
  open_now : String
  place_id : String
  maps_link : Option String
  distance_km : Option String
deriving DecidableEq

/-- Result dict of `find_nearby_chemists` (lines 247-312): the
missing-API-key dict, the success dict, or the caught-exception dict. -/
inductive ChemistOut where
  | noKey (error message manual_search : String) (common_chains : List String)
  | found (location : String) (radius_km : String) (total_found : Nat)
      (chemists : List Chemist) (search_timestamp note : String)
  | failed (error fallback : String) (common_chains : List String)
deriving DecidableEq

/-- The `output` field of a session record: the result dict of the
tool call being logged. -/
inductive ToolOutput where
  | analyze (r : AnalyzeResult)
  | medicine (r : SuggestResult)
  | remedies (r : RemediesResult)
  | chemists (r : ChemistOut)
deriving DecidableEq

/-- One entry of `self.sessions`: the dict passed to `_log_session`
with keys type, input, output, timestamp. -/
structure SessionRecord where
  type : String
  input : String
  output : ToolOutput
  timestamp : String
deriving DecidableEq

/-- Result dict of `get_session_logs` (lines 314-321). -/
structure SessionLogsResult where
  total_sessions : Nat
  recent_sessions : List SessionRecord
  server_uptime : String
deriving DecidableEq

/-- The mutable state of a `MedicalMCPServer` instance:
`self.sessions` and `self.google_api_key` (`none` models a missing
environment variable). -/
structure ServerState where
  sessions : List SessionRecord
  google_api_key : Option String
deriving DecidableEq

/-- `_log_session` (lines 386-391): append, then keep only the last
100 entries (`self.sessions = self.sessions[-100:]`) when the length
exceeds 100. -/
def logSession (st : ServerState) (r : SessionRecord) : ServerState :=
  let s := st.sessions ++ [r]
  { st with sessions := if s.length > 100 then s.drop (s.length - 100) else s }

/-- `_identify_condition` (lines 325-340). -/
def identifyCondition (symptoms_lower : String) : String :=
  if ["fever", "temperature", "hot", "burning"].any
      (fun w => pyIn w symptoms_lower) then "fever"
  else if ["headache", "head pain", "migraine"].any
      (fun w => pyIn w symptoms_lower) then "headache"
  else if ["cough", "coughing"].any
      (fun w => pyIn w symptoms_lower) then "cough"
  else if ["cold", "runny nose", "sore throat", "sneezing"].any
      (fun w => pyIn w symptoms_lower) then "cold"
  else if ["stomach", "nausea", "vomiting", "diarrhea"].any
      (fun w => pyIn w symptoms_lower) then "stomach_upset"
  else if ["pain", "ache", "hurt"].any
      (fun w => pyIn w symptoms_lower) then "pain"
  else "general"

/-- `_determine_triage_level` (lines 342-350).  The `condition`
argument is received but never read. -/
def determineTriageLevel (symptoms_lower : String) (_condition : String) : String :=
  if ["severe", "extreme", "unbearable", "intense"].any
      (fun w => pyIn w symptoms_lower) then "urgent"
  else if ["high fever", "103", "persistent", "worsening"].any
      (fun w => pyIn w symptoms_lower) then "routine"
  else "self_care"

/-- `_map_condition_to_medicine` (lines 352-363). -/
def mapConditionToMedicine (condition_lower : String) : String :=
  if ["fever", "temperature"].any (fun w => pyIn w condition_lower) then "fever"
  else if ["headache", "head pain"].any (fun w => pyIn w condition_lower) then "headache"
  else if ["pain", "ache"].any (fun w => pyIn w condition_lower) then "pain"
  else if ["cold", "cough"].any (fun w => pyIn w condition_lower) then "cold"
  else ""

/-- `_get_follow_up_advice` (lines 365-373). -/
def getFollowUpAdvice (triage_level : String) : String :=
  (dictGet
    [("emergency", "Seek immediate medical attention"),
     ("urgent", "See a doctor within 24 hours"),
     ("routine", "Schedule appointment with doctor within 1-2 weeks if symptoms persist"),
     ("self_care", "Monitor symptoms. See doctor if they worsen or persist beyond 3-5 days")]
    triage_level).getD "Consult healthcare professional if concerned"

/-- `_get_warning_signs` (lines 375-384); an unknown condition falls
back to the table's "general" entry. -/
def getWarningSigns (condition : String) : List String :=
  (dictGet
    [("fever", ["Temperature above 103¬∞F (39.4¬∞C)", "Persistent fever beyond 3 days", "Difficulty breathing"]),
     ("headache", ["Sudden severe headache", "Headache with neck stiffness", "Changes in vision"]),
     ("cough", ["Blood in cough", "Difficulty breathing", "Chest pain"]),
     ("cold", ["High fever", "Severe throat pain", "Ear pain"]),
     ("general", ["Worsening symptoms", "New severe symptoms", "Signs of dehydration"])]
    condition).getD
    ["Worsening symptoms", "New severe symptoms", "Signs of dehydration"]

/-- `analyze_symptoms` (lines 104-155).  Returns the result dict and
the updated server state; the emergency branch returns before the
`_log_session` call, so it leaves the state unchanged. -/
def analyze_symptoms (st : ServerState) (symptoms : String)
    (_age : String := "adult") (_location : Option String := none)
    (now : String := "") : AnalyzeResult × ServerState :=
  let symptoms_lower := pyLower symptoms
  let detected_emergencies :=
    EMERGENCY_KEYWORDS.filter (fun keyword => pyIn keyword symptoms_lower)
  if detected_emergencies ≠ [] then
    ({ triage_level := "emergency",
       message := some "üö® EMERGENCY DETECTED: Call 102/108 immediately or visit nearest hospital",
       action := some "seek_immediate_help",
       detected_red_flags := some detected_emergencies,
       emergency_contacts := some ⟨"102 / 108", "100", "101"⟩,
       condition := none, assessment := none,
       medicine_suggestion := none, home_remedies := none,
       follow_up := none, warning_signs := none,
       disclaimer := "This is a medical emergency. Get professional medical help immediately." },
     st)
  else
    let condition := identifyCondition symptoms_lower
    let triage_level := determineTriageLevel symptoms_lower condition
    let medicine_info := dictGet BASIC_MEDICINES condition
    let remedies := (dictGet HOME_REMEDIES condition).getD
      ["Rest", "Stay hydrated", "Monitor symptoms"]
    let result : AnalyzeResult :=
      { triage_level := triage_level,
        message := none, action := none,
        detected_red_flags := none, emergency_contacts := none,
        condition := some condition,
        assessment := some ("Based on symptoms: " ++ symptoms),
        medicine_suggestion := medicine_info,
        home_remedies := some remedies,
        follow_up := some (getFollowUpAdvice triage_level),
        warning_signs := some (getWarningSigns condition),
        disclaimer := "‚ö†Ô∏è This is informational only. Consult a healthcare professional for medical advice." }
    (result, logSession st ⟨"symptom_analysis", symptoms, .analyze result, now⟩)

/-- `suggest_medicine` (lines 157-195).  The lookup result is
`Option MedicineInfo`: `none` models the empty dict returned by
`.get(key, {})` for an unmapped key, which makes `if not
medicine_info` true (no table entry is an empty dict). -/
def suggest_medicine (st : ServerState) (condition : String)
    (_age : String := "adult") (now : String := "") :
    SuggestResult × ServerState :=
  let condition_lower := pyLower condition
  let medicine_key := mapConditionToMedicine condition_lower
  match dictGet BASIC_MEDICINES medicine_key with
  | none =>
    (.referral "Please consult a pharmacist for specific medicine recommendations"
       "Only use medicines as directed on the package"
       "Paracetamol for fever/pain, ORS for dehydration"
       "This tool only suggests common OTC medicines for basic symptoms",
     st)
  | some medicine_info =>
    let warnings :=
      [medicine_info.warning.getD ""] ++
        match medicine_info.age_restriction with
        | some r => [r]
        | none => []
    let result : SuggestResult :=
      .suggestion condition (medicine_info.medicine.getD "")
        (medicine_info.dose.getD "") (medicine_info.frequency.getD "As needed")
        (medicine_info.max_daily.getD "") warnings
        "‚ö†Ô∏è Only use as directed. Consult pharmacist if unsure. Not for prescription medicines."
    (result, logSession st ⟨"medicine_suggestion", condition, .medicine result, now⟩)

/-- The match test of the `get_home_remedies` loop (line 206):
`key in condition_lower or any(word in condition_lower for word in
key.split('_'))`. -/
def remedyKeyMatches (condition_lower : String) (p : String × List String) : Bool :=
  pyIn p.1 condition_lower ||
    (pySplit '_' p.1.data).any (fun word => occursIn word condition_lower.data)

/-- The matching loop of `get_home_remedies` (lines 205-208),
accumulating `(remedies, matched_conditions)` over the
`HOME_REMEDIES` items in order. -/
def collectRemedies (condition_lower : String) : List String × List String :=
  HOME_REMEDIES.foldl
    (fun acc p =>
      if remedyKeyMatches condition_lower p then
        (acc.1 ++ p.2, acc.2 ++ [p.1])
      else acc)
    (([], []) : List String × List String)

/-- `get_home_remedies` (lines 197-245). -/
def get_home_remedies (st : ServerState) (condition : String)
    (now : String := "") : RemediesResult × ServerState :=
  let condition_lower := pyLower condition
  let collected := collectRemedies condition_lower
  let unique_remedies := pyUnique collected.1
  let final :=
    if unique_remedies = [] then
      (["Rest and stay hydrated with plenty of fluids",
        "Monitor your symptoms carefully",
        "Seek medical advice if symptoms worsen or persist",
        "Maintain good hygiene and nutrition"],
       ["general"])
    else (unique_remedies, collected.2)
  let result : RemediesResult :=
    { condition := condition,
      matched_categories := final.2,
      remedies := final.1,
      general_tips :=
        ["Home remedies work best alongside proper rest",
         "Stay hydrated throughout treatment",
         "If symptoms worsen, seek medical help"],
      disclaimer := "üè† Home remedies are supportive care only. Not a substitute for professional medical advice",
      warning := "‚ö†Ô∏è Seek medical help if symptoms are severe or worsen" }
  (result, logSession st ⟨"home_remedies", condition, .remedies result, now⟩)

/-- Python truthiness of the guard at line 249: the key is configured
iff it is present, non-empty and not the placeholder value. -/
def hasApiKey (st : ServerState) : Bool :=
  match st.google_api_key with
  | none => false
  | some k => !(k == "" || k == "your_google_places_api_key_here")

/-- Builds one chemist dict from a places entry (lines 271-287). -/
def mkChemist (p : Place) : Chemist :=
  { name := p.name.getD "Unknown",
    address := p.vicinity.getD "Address not available",
    rating := p.rating.getD "Not rated",
    open_now := p.opening_open_now.getD "Unknown",
    place_id := p.place_id.getD "",
    maps_link := p.geometry.map
      (fun g => "https://maps.google.com/?q=" ++ g.1 ++ "," ++ g.2),
    distance_km := p.geometry.map (fun _ => "Calculating...") }

/-- `find_nearby_chemists` (lines 247-312).  The missing-key branch
returns before `_log_session`; both the success and the
caught-exception branch log. -/
def find_nearby_chemists (st : ServerState) (location : String)
    (radius_km : String := "5.0") (api : Except String (List Place) := .error "")
    (now : String := "") : ChemistOut × ServerState :=
  if hasApiKey st = false then
    (.noKey "Google Places API key not configured"
       "Please add your Google Places API key to .env file"
       ("Search for 'pharmacy near " ++ location ++ "' on Google Maps")
       ["Apollo Pharmacy", "MedPlus", "Netmeds", "1mg", "Guardian Pharmacy"],
     st)
  else
    let result : ChemistOut :=
      match api with
      | .ok places =>
        let chemists := (places.take 5).map mkChemist
        .found location radius_km chemists.length chemists now
          "Call ahead to confirm medicine availability"
      | .error e =>
        .failed ("Failed to search chemists: " ++ e)
          "Try searching 'pharmacy near me' on Google Maps"
          ["Apollo Pharmacy", "MedPlus", "Netmeds", "1mg", "Guardian Pharmacy"]
    (result, logSession st ⟨"chemist_search", location, .chemists result, now⟩)

/-- `get_session_logs` (lines 314-321): `recent_sessions =
self.sessions[-limit:]`. -/
def get_session_logs (st : ServerState) (limit : Int) : SessionLogsResult :=
  { total_sessions := st.sessions.length,
    recent_sessions := pySliceFrom st.sessions (-limit),
    server_uptime := "Running" }

/-- The `get_session_logs` branch of `handle_mcp_request`
(lines 423-425): `limit = params.get("limit", 10)`. -/
def handle_get_session_logs (st : ServerState) (params_limit : Option Int) :
    SessionLogsResult :=
  get_session_logs st (params_limit.getD 10)

/-- A sequence of `_log_session` calls, for stating the Session Log
cap property. -/
def appendSessions (st : ServerState) (rs : List SessionRecord) : ServerState :=
  rs.foldl logSession st

/-- The condition-keyword table implicit in `_identify_condition`,
in the source's test order. -/
def conditionKeywordTable : List (String × List String) :=
  [("fever", ["fever", "temperature", "hot", "burning"]),
   ("headache", ["headache", "head pain", "migraine"]),
   ("cough", ["cough", "coughing"]),
   ("cold", ["cold", "runny nose", "sore throat", "sneezing"]),
   ("stomach_upset", ["stomach", "nausea", "vomiting", "diarrhea"]),
   ("pain", ["pain", "ache", "hurt"])]

/-- First tag of `conditionKeywordTable` one of whose keywords occurs
in `s`, if any.  Spec-side description of the classifier: iterate
tags in priority order, return the first with a keyword match. -/
def firstMatchAux (s : String) : List (String × List String) → Option String
  | [] => none
  | (tag, ws) :: rest =>
    if ws.any (fun w => pyIn w s) then some tag else firstMatchAux s rest

/-- Spec-side classifier: the first matching tag in priority order,
defaulting to "general". -/
def firstMatchingTag (s : String) : String :=
  (firstMatchAux s conditionKeywordTable).getD "general"

/-- A concrete session record, used to instantiate witnesses. -/
def sampleRecord : SessionRecord :=
  { type := "symptom_analysis",
    input := "mild cough",
    output := .analyze
      { triage_level := "self_care",
        message := none, action := none,
        detected_red_flags := none, emergency_contacts := none,
        condition := some "cough",
        assessment := some "Based on symptoms: mild cough",
        medicine_suggestion := none,
        home_remedies := some ["Rest", "Stay hydrated", "Monitor symptoms"],
        follow_up := some "Monitor symptoms. See doctor if they worsen or persist beyond 3-5 days",
        warning_signs := some ["Blood in cough", "Difficulty breathing", "Chest pain"],
        disclaimer := "d" },
    timestamp := "2025-01-01T00:00:00" }

theorem logSession_sessions (st : ServerState) (r : SessionRecord) :
    (logSession st r).sessions = lastN 100 (st.sessions ++ [r]) := by
  show (if (st.sessions ++ [r]).length > 100
        then (st.sessions ++ [r]).drop ((st.sessions ++ [r]).length - 100)
        else st.sessions ++ [r]) = lastN 100 (st.sessions ++ [r])
  unfold lastN
  split_ifs with hgt
  · rfl
  · have h0 : (st.sessions ++ [r]).length - 100 = 0 := by omega
    rw [h0, List.drop_zero]

theorem lastN_length (n : Nat) (l : List α) :
    (lastN n l).length = min n l.length := by
  unfold lastN
  rw [List.length_drop]
  omega

theorem logSession_length_le (st : ServerState) (r : SessionRecord) :
    (logSession st r).sessions.length ≤ 100 := by
  rw [logSession_sessions, lastN_length]
  omega

theorem lastN_append_lastN (n : Nat) (xs ys : List α) :
    lastN n (lastN n xs ++ ys) = lastN n (xs ++ ys) := by
  unfold lastN
  rw [List.drop_append_eq_append_drop, List.drop_append_eq_append_drop,
    List.drop_drop]
  congr 2 <;> simp [List.length_drop, List.length_append] <;> omega

theorem appendSessions_sessions (rs : List SessionRecord) :
    ∀ st : ServerState, st.sessions.length ≤ 100 →
      (appendSessions st rs).sessions = lastN 100 (st.sessions ++ rs) := by
  induction rs with
  | nil =>
    intro st h
    have h0 : st.sessions.length - 100 = 0 := by omega
    simp [appendSessions, lastN, h0]
  | cons r rs ih =>
    intro st h
    have step : appendSessions st (r :: rs) = appendSessions (logSession st r) rs := rfl
    rw [step, ih _ (logSession_length_le st r), logSession_sessions,
      lastN_append_lastN]
    simp

/-- C10: the triage-level computation ignores the classified condition
argument: for any symptom text and any two condition tags, the results
agree; the result is a function of the text alone. -/
theorem C10_triage_ignores_condition :
    ∀ (text c1 c2 : String),
      determineTriageLevel text c1 = determineTriageLevel text c2 :=
  fun _ _ _ => rfl

/-- C4: the condition classifier is total and equals the spec-side
first-match-in-priority-order classifier over the table
fever → headache → cough → cold → stomach_upset → pain, defaulting to
"general"; consequently a text matching both a fever keyword and a
headache keyword classifies as "fever". -/
theorem C4_classifier_priority_order :
    (∀ s : String, identifyCondition s = firstMatchingTag s) ∧
    (∀ s : String,
      ["fever", "temperature", "hot", "burning"].any (fun w => pyIn w s) = true →
      ["headache", "head pain", "migraine"].any (fun w => pyIn w s) = true →
      identifyCondition s = "fever") := by
  constructor
  · intro s
    unfold identifyCondition firstMatchingTag conditionKeywordTable
    simp only [firstMatchAux]
    split_ifs <;> rfl
  · intro s h1 _h2
    simp [identifyCondition, h1]

/-- C4 witness: "fever and headache" matches both a fever keyword and
a headache keyword and classifies as "fever". -/
theorem C4_classifier_priority_order_witness :
    (["fever", "temperature", "hot", "burning"].any
        (fun w => pyIn w "fever and headache") = true) ∧
    (["headache", "head pain", "migraine"].any
        (fun w => pyIn w "fever and headache") = true) ∧
    identifyCondition "fever and headache" = "fever" :=
  ⟨by decide, by decide,
    C4_classifier_priority_order.2 "fever and headache" (by decide) (by decide)⟩

/-- C1: any symptoms text containing an emergency keyword
(case-insensitively, i.e. as a substring of the lowercased text) gets
triage level "emergency", and detected_red_flags is exactly the list
of all emergency keywords occurring in the text, in the order of the
EMERGENCY_KEYWORDS table; in particular it contains every emergency
keyword occurring in the text. -/
theorem C1_emergency_override (st : ServerState)
    (symptoms age now : String) (location : Option String)
    (h : ∃ kw ∈ EMERGENCY_KEYWORDS, pyIn kw (pyLower symptoms) = true) :
    (analyze_symptoms st symptoms age location now).1.triage_level = "emergency" ∧
    (analyze_symptoms st symptoms age location now).1.detected_red_flags =
      some (EMERGENCY_KEYWORDS.filter (fun kw => pyIn kw (pyLower symptoms))) ∧
    ∀ kw ∈ EMERGENCY_KEYWORDS, pyIn kw (pyLower symptoms) = true →
      kw ∈ ((analyze_symptoms st symptoms age location now).1.detected_red_flags.getD []) := by
  obtain ⟨kw, hmem, hin⟩ := h
  have hne : EMERGENCY_KEYWORDS.filter (fun k => pyIn k (pyLower symptoms)) ≠ [] :=
    List.ne_nil_of_mem (List.mem_filter.mpr ⟨hmem, hin⟩)
  refine ⟨?_, ?_, ?_⟩
  · simp [analyze_symptoms, hne]
  · simp [analyze_symptoms, hne]
  · intro k hk hik
    simp only [analyze_symptoms, hne, if_true, ne_eq, not_false_iff, if_pos,
      Option.getD_some]
    simp [hne, List.mem_filter]
    exact ⟨hk, hik⟩

/-- C1 witness: "Severe Chest Pain" contains the emergency keyword
"chest pain" case-insensitively and is triaged as an emergency. -/
theorem C1_emergency_override_witness :
    (∃ kw ∈ EMERGENCY_KEYWORDS, pyIn kw (pyLower "Severe Chest Pain") = true) ∧
    (analyze_symptoms ⟨[], none⟩ "Severe Chest Pain" "adult" none "t").1.triage_level
      = "emergency" :=
  ⟨⟨"chest pain", by decide, by decide⟩,
    (C1_emergency_override ⟨[], none⟩ "Severe Chest Pain" "adult" "t" none
      ⟨"chest pain", by decide, by decide⟩).1⟩

/-- C3: when the symptoms text contains no emergency keyword, the
triage level follows the severity cascade: "urgent" on a severity
word, else "routine" on a persistence word, else "self_care"; in
particular a text with none of those words is triaged "self_care". -/
theorem C3_nonemergency_triage (st : ServerState)
    (symptoms age now : String) (location : Option String)
    (h : ∀ kw ∈ EMERGENCY_KEYWORDS, pyIn kw (pyLower symptoms) = false) :
    ((analyze_symptoms st symptoms age location now).1.triage_level =
      if ["severe", "extreme", "unbearable", "intense"].any
          (fun w => pyIn w (pyLower symptoms)) then "urgent"
      else if ["high fever", "103", "persistent", "worsening"].any
          (fun w => pyIn w (pyLower symptoms)) then "routine"
      else "self_care") ∧
    ((∀ w ∈ ["severe", "extreme", "unbearable", "intense",
             "high fever", "103", "persistent", "worsening"],
        pyIn w (pyLower symptoms) = false) →
      (analyze_symptoms st symptoms age location now).1.triage_level = "self_care") := by
  have hnil : EMERGENCY_KEYWORDS.filter (fun k => pyIn k (pyLower symptoms)) = [] :=
    List.filter_eq_nil_iff.mpr (fun a ha => by simp [h a ha])
  have hbranch : (analyze_symptoms st symptoms age location now).1.triage_level
      = determineTriageLevel (pyLower symptoms) (identifyCondition (pyLower symptoms)) := by
    simp [analyze_symptoms, hnil]
  constructor
  · rw [hbranch]; rfl
  · intro hall
    have h1 := hall "severe" (by simp)
    have h2 := hall "extreme" (by simp)
    have h3 := hall "unbearable" (by simp)
    have h4 := hall "intense" (by simp)
    have h5 := hall "high fever" (by simp)
    have h6 := hall "103" (by simp)
    have h7 := hall "persistent" (by simp)
    have h8 := hall "worsening" (by simp)
    rw [hbranch]
    simp [determineTriageLevel, h1, h2, h3, h4, h5, h6, h7, h8]

/-- C3 witness: "mild cough" has no emergency keyword and no
severity/persistence word, and is triaged "self_care". -/
theorem C3_nonemergency_triage_witness :
    (∀ kw ∈ EMERGENCY_KEYWORDS, pyIn kw (pyLower "mild cough") = false) ∧
    (analyze_symptoms ⟨[], none⟩ "mild cough" "adult" none "t").1.triage_level
      = "self_care" :=
  ⟨by decide,
    (C3_nonemergency_triage ⟨[], none⟩ "mild cough" "adult" "t" none
      (by decide)).2 (by decide)⟩

/-- C5: the Session Log append always succeeds and caps the log at
the 100 most recent entries: appending 105 records to an empty log
leaves exactly the last 100 of them, in insertion order, and a log of
length at most 100 stays at most 100 after any append. -/
theorem C5_session_log_cap (rs : List SessionRecord) (h : rs.length = 105)
    (st : ServerState) (r : SessionRecord) :
    (appendSessions ⟨[], none⟩ rs).sessions = rs.drop 5 ∧
    (appendSessions ⟨[], none⟩ rs).sessions.length = 100 ∧
    (logSession st r).sessions.length ≤ 100 := by
  have hs : (appendSessions ⟨[], none⟩ rs).sessions = lastN 100 rs := by
    have h0 := appendSessions_sessions rs ⟨[], none⟩ (by simp)
    simpa using h0
  refine ⟨?_, ?_, logSession_length_le st r⟩
  · rw [hs]; unfold lastN; rw [h]
  · rw [hs, lastN_length, h]; omega

/-- C5 witness: appending 105 copies of a concrete record to the empty
log leaves exactly 100 entries. -/
theorem C5_session_log_cap_witness :
    (List.replicate 105 sampleRecord).length = 105 ∧
    (appendSessions ⟨[], none⟩ (List.replicate 105 sampleRecord)).sessions.length = 100 :=
  ⟨by simp,
    (C5_session_log_cap (List.replicate 105 sampleRecord) (by simp)
      ⟨[], none⟩ sampleRecord).2.1⟩

/-- C6 counterexample: with one record in the log, get_session_logs
with limit 0 returns that record (Python `sessions[-0:]` is the whole
list), not the most recent 0 entries, refuting the claim for every
limit value. -/
theorem C6_counterexample :
    (get_session_logs ⟨[sampleRecord], none⟩ 0).recent_sessions = [sampleRecord] ∧
    ([sampleRecord] : List SessionRecord) ≠ [] := by
  exact ⟨rfl, by simp⟩

/-- C6 amended: for every positive limit, get_session_logs returns
exactly the most recent `limit` entries of the log (all entries when
the log holds fewer than `limit`), total_sessions is the log's total
length, and the dispatcher default limit is 10. -/
theorem C6_session_logs_positive (st : ServerState) (limit : Int) (h : 1 ≤ limit) :
    (get_session_logs st limit).recent_sessions = lastN limit.toNat st.sessions ∧
    (get_session_logs st limit).recent_sessions.length
      = min limit.toNat st.sessions.length ∧
    ((st.sessions.length : Int) ≤ limit →
      (get_session_logs st limit).recent_sessions = st.sessions) ∧
    (get_session_logs st limit).total_sessions = st.sessions.length ∧
    handle_get_session_logs st none = get_session_logs st 10 := by
  have key : (get_session_logs st limit).recent_sessions
      = lastN limit.toNat st.sessions := by
    show pySliceFrom st.sessions (-limit) = lastN limit.toNat st.sessions
    unfold pySliceFrom lastN
    rw [if_pos (by omega : -limit < 0)]
    congr 1
    omega
  refine ⟨key, ?_, ?_, rfl, rfl⟩
  · rw [key, lastN_length]
  · intro hle
    rw [key]
    unfold lastN
    have h0 : st.sessions.length - limit.toNat = 0 := by omega
    rw [h0, List.drop_zero]

/-- C6 witness: with one record in the log and the default limit 10,
the total count is 1. -/
theorem C6_session_logs_positive_witness :
    ((1 : Int) ≤ 10) ∧
    (get_session_logs ⟨[sampleRecord], none⟩ 10).total_sessions = 1 :=
  ⟨by norm_num,
    ((C6_session_logs_positive ⟨[sampleRecord], none⟩ 10 (by norm_num)).2.2.2.1).trans rfl⟩

theorem mapCondition_cases (c : String) :
    mapConditionToMedicine c = "fever" ∨ mapConditionToMedicine c = "headache" ∨
    mapConditionToMedicine c = "pain" ∨ mapConditionToMedicine c = "cold" ∨
    mapConditionToMedicine c = "" := by
  unfold mapConditionToMedicine
  split_ifs <;> simp

/-- C9: the medicine mapper only produces the four keys fever,
headache, pain, cold (or the unmapped empty key); any unmapped
condition gets the fixed pharmacist-referral result, never an error;
and suggest_medicine("headache") recommends "Paracetamol or
Ibuprofen" with "Don't take both together" among the warnings. -/
theorem C9_suggest_medicine_behavior :
    (∀ c : String,
      mapConditionToMedicine c = "fever" ∨ mapConditionToMedicine c = "headache" ∨
      mapConditionToMedicine c = "pain" ∨ mapConditionToMedicine c = "cold" ∨
      mapConditionToMedicine c = "") ∧
    (∀ (st : ServerState) (c age now : String),
      mapConditionToMedicine (pyLower c) = "" →
      (suggest_medicine st c age now).1 =
        .referral "Please consult a pharmacist for specific medicine recommendations"
          "Only use medicines as directed on the package"
          "Paracetamol for fever/pain, ORS for dehydration"
          "This tool only suggests common OTC medicines for basic symptoms") ∧
    (∀ (st : ServerState) (age now : String),
      (suggest_medicine st "headache" age now).1.recommended_medicine
        = some "Paracetamol or Ibuprofen" ∧
      "Don't take both together" ∈ (suggest_medicine st "headache" age now).1.warnings) := by
  refine ⟨mapCondition_cases, ?_, ?_⟩
  · intro st c age now h
    have hdg : dictGet BASIC_MEDICINES (mapConditionToMedicine (pyLower c)) = none := by
      rw [h]; rfl
    simp [suggest_medicine, hdg]
  · intro st age now
    refine ⟨rfl, ?_⟩
    show "Don't take both together" ∈
      ["Don't take both together", "Ibuprofen not for children under 6 months"]
    simp

/-- C9 witness: "eczema" maps to no medicine key and gets the
pharmacist referral. -/
theorem C9_suggest_medicine_behavior_witness :
    mapConditionToMedicine (pyLower "eczema") = "" ∧
    (suggest_medicine ⟨[], none⟩ "eczema" "adult" "t").1 =
      .referral "Please consult a pharmacist for specific medicine recommendations"
        "Only use medicines as directed on the package"
        "Paracetamol for fever/pain, ORS for dehydration"
        "This tool only suggests common OTC medicines for basic symptoms" :=
  ⟨by decide,
    C9_suggest_medicine_behavior.2.1 ⟨[], none⟩ "eczema" "adult" "t" (by decide)⟩

theorem collectRemedies_eq (cl : String) :
    collectRemedies cl =
      (((HOME_REMEDIES.filter (remedyKeyMatches cl)).map Prod.snd).flatten,
       (HOME_REMEDIES.filter (remedyKeyMatches cl)).map Prod.fst) := by
  unfold collectRemedies
  suffices hgen : ∀ (l : List (String × List String)) (acc : List String × List String),
      l.foldl
        (fun acc p =>
          if remedyKeyMatches cl p then (acc.1 ++ p.2, acc.2 ++ [p.1]) else acc)
        acc
      = (acc.1 ++ ((l.filter (remedyKeyMatches cl)).map Prod.snd).flatten,
         acc.2 ++ (l.filter (remedyKeyMatches cl)).map Prod.fst) by
    rw [hgen]
    simp
  intro l
  induction l with
  | nil => intro acc; simp
  | cons p l ih =>
    intro acc
    rw [List.foldl_cons]
    by_cases hp : remedyKeyMatches cl p
    · rw [if_pos hp, ih, List.filter_cons_of_pos hp]
      simp
    · rw [if_neg hp, ih, List.filter_cons_of_neg hp]

/-- C7 counterexample: the fallback remedy list for an unmatched
condition has four items, not three. -/
theorem C7_counterexample :
    (get_home_remedies ⟨[], none⟩ "xyz" "t").1.remedies.length = 4 ∧
    (get_home_remedies ⟨[], none⟩ "xyz" "t").1.remedies.length ≠ 3 :=
  ⟨rfl, by decide⟩

/-- C7 amended: for a condition text matching no remedy-table key
(neither by the key as a substring nor by any underscore-split word of
the key), get_remedies returns the fixed FOUR-item fallback remedy
list and matched_categories = ["general"]. -/
theorem C7_unmatched_fallback (st : ServerState) (condition now : String)
    (h : ∀ p ∈ HOME_REMEDIES, remedyKeyMatches (pyLower condition) p = false) :
    (get_home_remedies st condition now).1.remedies =
      ["Rest and stay hydrated with plenty of fluids",
       "Monitor your symptoms carefully",
       "Seek medical advice if symptoms worsen or persist",
       "Maintain good hygiene and nutrition"] ∧
    (get_home_remedies st condition now).1.matched_categories = ["general"] ∧
    (get_home_remedies st condition now).1.remedies.length = 4 := by
  have hfil : HOME_REMEDIES.filter (remedyKeyMatches (pyLower condition)) = [] :=
    List.filter_eq_nil_iff.mpr (fun p hp => by simp [h p hp])
  have hcol : collectRemedies (pyLower condition) = ([], []) := by
    rw [collectRemedies_eq, hfil]
    simp
  refine ⟨?_, ?_, ?_⟩ <;> simp [get_home_remedies, hcol, pyUnique]

/-- C7 witness: "xyz" matches nothing and yields the four-item
fallback with matched_categories ["general"]. -/
theorem C7_unmatched_fallback_witness :
    (∀ p ∈ HOME_REMEDIES, remedyKeyMatches (pyLower "xyz") p = false) ∧
    (get_home_remedies ⟨[], none⟩ "xyz" "t").1.matched_categories = ["general"] :=
  ⟨by decide,
    (C7_unmatched_fallback ⟨[], none⟩ "xyz" "t" (by decide)).2.1⟩

theorem pyUnique_foldl_length (l : List String) :
    ∀ acc : List String,
      acc.length ≤
        (l.foldl (fun acc r => if r ∈ acc then acc else acc ++ [r]) acc).length := by
  induction l with
  | nil => intro acc; simp
  | cons x xs ih =>
    intro acc
    rw [List.foldl_cons]
    refine le_trans ?_ (ih _)
    by_cases hx : x ∈ acc <;> simp [hx]

theorem pyUnique_ne_nil (l : List String) (h : l ≠ []) : pyUnique l ≠ [] := by
  cases l with
  | nil => exact absurd rfl h
  | cons x xs =>
    unfold pyUnique
    rw [List.foldl_cons]
    intro hc
    have hlen := pyUnique_foldl_length xs (if x ∈ ([] : List String) then [] else [] ++ [x])
    simp only [List.not_mem_nil, if_false, List.nil_append, List.length_cons,
      List.length_nil] at hlen hc
    rw [hc] at hlen
    simp at hlen

theorem HOME_REMEDIES_values_ne_nil :
    ∀ p ∈ HOME_REMEDIES, p.2 ≠ [] := by
  decide

/-- C8: when more than one remedy-table key matches the condition
text, get_remedies returns the concatenation of the matched keys'
remedy lists, de-duplicated preserving first-seen order, and
matched_categories is the list of all matched keys in table order (so
it contains every matched key). -/
theorem C8_multi_match (st : ServerState) (condition now : String)
    (h : ∃ p ∈ HOME_REMEDIES, ∃ q ∈ HOME_REMEDIES, p.1 ≠ q.1 ∧
      remedyKeyMatches (pyLower condition) p = true ∧
      remedyKeyMatches (pyLower condition) q = true) :
    (get_home_remedies st condition now).1.remedies =
      pyUnique (((HOME_REMEDIES.filter
        (remedyKeyMatches (pyLower condition))).map Prod.snd).flatten) ∧
    (get_home_remedies st condition now).1.matched_categories =
      (HOME_REMEDIES.filter (remedyKeyMatches (pyLower condition))).map Prod.fst ∧
    ∀ p ∈ HOME_REMEDIES, remedyKeyMatches (pyLower condition) p = true →
      p.1 ∈ (get_home_remedies st condition now).1.matched_categories := by
  obtain ⟨p, hp, _q, _hq, _hne, hpm, _hqm⟩ := h
  have hpfil : p ∈ HOME_REMEDIES.filter (remedyKeyMatches (pyLower condition)) :=
    List.mem_filter.mpr ⟨hp, hpm⟩
  have hflat :
      ((HOME_REMEDIES.filter
        (remedyKeyMatches (pyLower condition))).map Prod.snd).flatten ≠ [] := by
    intro hc
    have hall := List.flatten_eq_nil_iff.mp hc
    exact HOME_REMEDIES_values_ne_nil p hp
      (hall p.2 (List.mem_map.mpr ⟨p, hpfil, rfl⟩))
  have huniq : pyUnique (((HOME_REMEDIES.filter
      (remedyKeyMatches (pyLower condition))).map Prod.snd).flatten) ≠ [] :=
    pyUnique_ne_nil _ hflat
  refine ⟨?_, ?_, ?_⟩
  · simp [get_home_remedies, collectRemedies_eq, huniq]
  · simp [get_home_remedies, collectRemedies_eq, huniq]
  · intro r hr hrm
    have : r.1 ∈ (HOME_REMEDIES.filter
        (remedyKeyMatches (pyLower condition))).map Prod.fst :=
      List.mem_map.mpr ⟨r, List.mem_filter.mpr ⟨hr, hrm⟩, rfl⟩
    simpa [get_home_remedies, collectRemedies_eq, huniq] using this

/-- C8 witness: "cold and cough" matches both the "cough" and the
"cold" keys and both appear in matched_categories. -/
theorem C8_multi_match_witness :
    (∃ p ∈ HOME_REMEDIES, ∃ q ∈ HOME_REMEDIES, p.1 ≠ q.1 ∧
      remedyKeyMatches (pyLower "cold and cough") p = true ∧
      remedyKeyMatches (pyLower "cold and cough") q = true) ∧
    "cough" ∈ (get_home_remedies ⟨[], none⟩ "cold and cough" "t").1.matched_categories ∧
    "cold" ∈ (get_home_remedies ⟨[], none⟩ "cold and cough" "t").1.matched_categories := by
  have hex : ∃ p ∈ HOME_REMEDIES, ∃ q ∈ HOME_REMEDIES, p.1 ≠ q.1 ∧
      remedyKeyMatches (pyLower "cold and cough") p = true ∧
      remedyKeyMatches (pyLower "cold and cough") q = true := by decide
  refine ⟨hex, ?_, ?_⟩ <;>
    rw [(C8_multi_match ⟨[], none⟩ "cold and cough" "t" hex).2.1] <;> decide

theorem determineTriageLevel_ne_emergency (s c : String) :
    determineTriageLevel s c ≠ "emergency" := by
  unfold determineTriageLevel
  split_ifs <;> simp

/-- C2 counterexample: three successful tool calls that do NOT append
a session record — an emergency analyze_symptoms call, an unmapped
suggest_medicine call (pharmacist referral), and a find_chemists call
with no API key configured — each leave the empty log empty. -/
theorem C2_counterexample :
    (analyze_symptoms ⟨[], none⟩ "chest pain" "adult" none "t").1.triage_level
      = "emergency" ∧
    (analyze_symptoms ⟨[], none⟩ "chest pain" "adult" none "t").2.sessions = [] ∧
    (suggest_medicine ⟨[], none⟩ "eczema" "adult" "t").2.sessions = [] ∧
    (find_nearby_chemists ⟨[], none⟩ "Delhi" "5.0" (.error "boom") "t").2.sessions
      = [] :=
  ⟨rfl, rfl, rfl, rfl⟩

/-- C2 amended: for every server state, get_remedies always appends
exactly one SessionRecord with fields type, input, output, timestamp
(the log is then trimmed to its most recent 100 entries);
analyze_symptoms appends exactly one such record unless its triage
level is "emergency" (then none); suggest_medicine appends exactly one
unless the condition is unmapped and the pharmacist referral is
returned (then none); find_chemists appends exactly one when an API
key is configured — on success and on caught failure alike — and none
when the key is missing. -/
theorem C2_logging (st : ServerState)
    (symptoms age cond location radius now : String) (loc : Option String)
    (api : Except String (List Place)) :
    ((analyze_symptoms st symptoms age loc now).1.triage_level = "emergency" →
      (analyze_symptoms st symptoms age loc now).2.sessions = st.sessions) ∧
    ((analyze_symptoms st symptoms age loc now).1.triage_level ≠ "emergency" →
      (analyze_symptoms st symptoms age loc now).2.sessions =
        lastN 100 (st.sessions ++ [⟨"symptom_analysis", symptoms,
          .analyze (analyze_symptoms st symptoms age loc now).1, now⟩])) ∧
    (mapConditionToMedicine (pyLower cond) ≠ "" →
      (suggest_medicine st cond age now).2.sessions =
        lastN 100 (st.sessions ++ [⟨"medicine_suggestion", cond,
          .medicine (suggest_medicine st cond age now).1, now⟩])) ∧
    (mapConditionToMedicine (pyLower cond) = "" →
      (suggest_medicine st cond age now).2.sessions = st.sessions) ∧
    (get_home_remedies st cond now).2.sessions =
      lastN 100 (st.sessions ++ [⟨"home_remedies", cond,
        .remedies (get_home_remedies st cond now).1, now⟩]) ∧
    (hasApiKey st = true →
      (find_nearby_chemists st location radius api now).2.sessions =
        lastN 100 (st.sessions ++ [⟨"chemist_search", location,
          .chemists (find_nearby_chemists st location radius api now).1, now⟩])) ∧
    (hasApiKey st = false →
      (find_nearby_chemists st location radius api now).2.sessions = st.sessions) := by
  have hl : ∀ r, (logSession st r).sessions = lastN 100 (st.sessions ++ [r]) :=
    fun r => logSession_sessions st r
  refine ⟨?_, ?_, ?_, ?_, ?_, ?_, ?_⟩
  · intro he
    by_cases hd : EMERGENCY_KEYWORDS.filter (fun k => pyIn k (pyLower symptoms)) = []
    · exfalso
      have hb : (analyze_symptoms st symptoms age loc now).1.triage_level
          = determineTriageLevel (pyLower symptoms)
              (identifyCondition (pyLower symptoms)) := by
        simp [analyze_symptoms, hd]
      rw [hb] at he
      exact determineTriageLevel_ne_emergency _ _ he
    · simp [analyze_symptoms, hd]
  · intro hne
    by_cases hd : EMERGENCY_KEYWORDS.filter (fun k => pyIn k (pyLower symptoms)) = []
    · simp [analyze_symptoms, hd, hl]
    · exfalso
      apply hne
      simp [analyze_symptoms, hd]
  · intro hk
    rcases hdg : dictGet BASIC_MEDICINES (mapConditionToMedicine (pyLower cond))
      with _ | mi
    · exfalso
      rcases mapCondition_cases (pyLower cond) with hc | hc | hc | hc | hc <;>
        rw [hc] at hdg
      · exact absurd hdg (by decide)
      · exact absurd hdg (by decide)
      · exact absurd hdg (by decide)
      · exact absurd hdg (by decide)
      · exact hk hc
    · simp [suggest_medicine, hdg, hl]
  · intro hk0
    have hdg : dictGet BASIC_MEDICINES (mapConditionToMedicine (pyLower cond))
        = none := by
      rw [hk0]; rfl
    simp [suggest_medicine, hdg]
  · simp [get_home_remedies, hl]
  · intro hkey
    rcases api with places | e <;> simp [find_nearby_chemists, hkey, hl]
  · intro hkey
    simp [find_nearby_chemists, hkey]

/-- C2 witness: with a configured key and an empty log, a mapped
suggest_medicine call and a failing find_chemists call each append
exactly their one record. -/
theorem C2_logging_witness :
    (mapConditionToMedicine (pyLower "cough") ≠ "") ∧
    (suggest_medicine ⟨[], some "k"⟩ "cough" "adult" "t").2.sessions =
      lastN 100 ([] ++ [⟨"medicine_suggestion", "cough",
        .medicine (suggest_medicine ⟨[], some "k"⟩ "cough" "adult" "t").1, "t"⟩]) ∧
    hasApiKey ⟨[], some "k"⟩ = true ∧
    (find_nearby_chemists ⟨[], some "k"⟩ "Delhi" "5.0" (.error "boom") "t").2.sessions =
      lastN 100 ([] ++ [⟨"chemist_search", "Delhi",
        .chemists (find_nearby_chemists ⟨[], some "k"⟩ "Delhi" "5.0"
          (.error "boom") "t").1, "t"⟩]) :=
  ⟨by decide,
    (C2_logging ⟨[], some "k"⟩ "s" "adult" "cough" "Delhi" "5.0" "t"
      none (.error "boom")).2.2.1 (by decide),
    by decide,
    (C2_logging ⟨[], some "k"⟩ "s" "adult" "cough" "Delhi" "5.0" "t"
      none (.error "boom")).2.2.2.2.2.1 (by decide)⟩
